import Mathlib

/-!
Verification of the cross-compilation build orchestrator (`build-cross.py`)
of htop-win. The script's data model and operations are shallowly embedded:
the process environment is an association list, the outside world (resolvable
tools, filesystem, spawned processes) is a record of functions, and the
orchestrator's externally visible behaviour is a trace of events plus an
exit status. Python exceptions that the script does not catch are modelled
with `Except`.
-/

namespace BuildCross

/-- A process environment: mapping from variable names to values
(`os.environ` and the dicts derived from it). Lookup takes the first
binding for a key, mirroring dict lookup on the duplicate-free mappings the
script manipulates. -/
abbrev Env := List (String × String)

/-- Dictionary lookup: `env[k]` / `env.get(k)`. -/
def Env.get? (e : Env) (k : String) : Option String :=
  match e with
  | [] => none
  | (k', v) :: rest => if k' = k then some v else Env.get? rest k

/-- Dictionary assignment `env[k] = v`: replaces the (first) existing
binding in place, or appends a new binding at the end, as Python dict
assignment preserves insertion order. -/
def Env.set (e : Env) (k : String) (v : String) : Env :=
  match e with
  | [] => [(k, v)]
  | (k', v') :: rest =>
    if k' = k then (k, v) :: rest else (k', v') :: Env.set rest k v

/-- One entry of the `TARGETS` table. -/
structure Target where
  triple : String
  cc : String
  ar : String
  linker : String
  use_llvm_mingw : Bool
deriving DecidableEq, Repr

/-- The `"x64"` entry of `TARGETS`. -/
def x64Target : Target :=
  { triple := "x86_64-pc-windows-gnu"
    cc := "x86_64-w64-mingw32-gcc"
    ar := "x86_64-w64-mingw32-ar"
    linker := "x86_64-w64-mingw32-gcc"
    use_llvm_mingw := false }

/-- The `"arm64"` entry of `TARGETS`. -/
def arm64Target : Target :=
  { triple := "aarch64-pc-windows-gnullvm"
    cc := "aarch64-w64-mingw32-clang"
    ar := "llvm-ar"
    linker := "aarch64-w64-mingw32-clang"
    use_llvm_mingw := true }

/-- The target registry, in insertion order. -/
def TARGETS : List (String × Target) := [("x64", x64Target), ("arm64", arm64Target)]

/-- Dictionary lookup `TARGETS[name]` (None models a KeyError being raised
at the use sites below). -/
def lookupTarget (name : String) : Option Target :=
  (TARGETS.find? (fun p => p.1 == name)).map Prod.snd

/-- Exceptions the script can raise and does not catch. -/
inductive PyExn where
  | keyError
  | fileNotFound
deriving DecidableEq, Repr

/-- `LLVM_MINGW = Path("/root/toolchains/llvm-mingw/bin")`. -/
def LLVM_MINGW : String := "/root/toolchains/llvm-mingw/bin"

/-- `triple.replace("-", "_")` (single-character pattern, so replacement is
a character map). -/
def envTripleOf (triple : String) : String :=
  String.mk (triple.toList.map (fun c => if c = '-' then '_' else c))

/-- Auxiliary for the substring test: `pat` occurs at the head of `s`. -/
def matchesAt (pat s : List Char) : Bool :=
  match pat, s with
  | [], _ => true
  | _ :: _, [] => false
  | p :: ps, c :: cs => p = c && matchesAt ps cs

/-- Auxiliary for the substring test: `pat` occurs somewhere in `s`. -/
def occursIn (pat s : List Char) : Bool :=
  match s with
  | [] => matchesAt pat []
  | _ :: cs => matchesAt pat s || occursIn pat cs

/-- Python's substring test `pat in s`. -/
def containsSub (pat s : String) : Bool := occursIn pat.toList s.toList

/-- Python's `str.upper()` on the ASCII strings involved here. -/
def upperChar (c : Char) : Char :=
  if 'a' ≤ c ∧ c ≤ 'z' then Char.ofNat (c.toNat - 32) else c

/-- Python's `str.upper()` on the ASCII strings involved here. -/
def upperStr (s : String) : String := String.mk (s.toList.map upperChar)

/-- `get_env_for_target`: copy the host environment, prepend llvm-mingw to
PATH when the target uses it (raising KeyError when PATH is absent), bind
the per-triple CC/AR/LINKER variables, and for gnullvm triples bind the
static-crt RUSTFLAGS variable. -/
def get_env_for_target (target_name : String) (hostEnv : Env) : Except PyExn Env :=
  match lookupTarget target_name with
  | none => .error .keyError
  | some target =>
    let triple := target.triple
    let env_triple := envTripleOf triple
    let withPath : Except PyExn Env :=
      if target.use_llvm_mingw then
        match hostEnv.get? "PATH" with
        | none => .error .keyError
        | some p => .ok (hostEnv.set "PATH" (LLVM_MINGW ++ ":" ++ p))
      else .ok hostEnv
    match withPath with
    | .error e => .error e
    | .ok env0 =>
      let env1 := env0.set ("CC_" ++ env_triple) target.cc
      let env2 := env1.set ("AR_" ++ env_triple) target.ar
      let env3 := env2.set ("CARGO_TARGET_" ++ upperStr env_triple ++ "_LINKER") target.linker
      let env4 :=
        if containsSub "gnullvm" triple then
          env3.set ("CARGO_TARGET_" ++ upperStr env_triple ++ "_RUSTFLAGS")
            "-C target-feature=+crt-static"
        else env3
      .ok env4

/-- The derived-environment shape for the x64 target. -/
def x64Env (hostEnv : Env) : Env :=
  ((hostEnv.set "CC_x86_64_pc_windows_gnu" "x86_64-w64-mingw32-gcc").set
      "AR_x86_64_pc_windows_gnu" "x86_64-w64-mingw32-ar").set
    "CARGO_TARGET_X86_64_PC_WINDOWS_GNU_LINKER" "x86_64-w64-mingw32-gcc"

/-- The derived-environment shape for the arm64 target, given the host PATH
value. -/
def arm64Env (hostEnv : Env) (p : String) : Env :=
  (((((hostEnv.set "PATH" ("/root/toolchains/llvm-mingw/bin:" ++ p)).set
          "CC_aarch64_pc_windows_gnullvm" "aarch64-w64-mingw32-clang").set
        "AR_aarch64_pc_windows_gnullvm" "llvm-ar").set
      "CARGO_TARGET_AARCH64_PC_WINDOWS_GNULLVM_LINKER" "aarch64-w64-mingw32-clang").set
    "CARGO_TARGET_AARCH64_PC_WINDOWS_GNULLVM_RUSTFLAGS" "-C target-feature=+crt-static")

/-- Outcome of attempting to spawn an external process:
either the process ran and exited with a code, or spawning itself failed
(for example the executable does not exist), which in Python raises
`FileNotFoundError` out of `subprocess.run`. -/
inductive SpawnResult where
  | exited (code : Int)
  | spawnFailure
deriving DecidableEq, Repr

/-- Externally visible actions the script performs, in order. -/
inductive Event where
  | ranCommand (cmd : List String) (env : Env)
  | madeOutputDir
  | copied (src dst : String)
deriving DecidableEq, Repr

/-- The ambient world the script runs in: tool resolution (`shutil.which`),
filesystem existence (`Path.exists`), process spawning, the host
environment (`os.environ`), the detected CPU count and the project
directory. -/
structure World where
  which : String → Option String
  pathExists : String → Bool
  spawn : List String → SpawnResult
  hostEnv : Env
  cpuCount : Int
  projectDir : String

/-- `run_command`: spawn the command under `env or os.environ`, return
`True` iff it exited 0. `subprocess.run(check=True)` raises
`CalledProcessError` on a non-zero exit, which is caught and turned into
`False`; a failure to spawn raises `FileNotFoundError`, which is NOT
caught and propagates. -/
def run_command (w : World) (cmd : List String) (env : Option Env) :
    List Event × Except PyExn Bool :=
  ([Event.ranCommand cmd (env.getD w.hostEnv)],
    match w.spawn cmd with
    | .exited c => .ok (decide (c = 0))
    | .spawnFailure => .error .fileNotFound)

/-- The fixed path of the arm64 compiler inside the alternate toolchain. -/
def AARCH64_CLANG : String := LLVM_MINGW ++ "/aarch64-w64-mingw32-clang"

/-- `check_prerequisites`: cargo resolvable, then the x64 mingw compiler
resolvable, then the llvm-mingw arm64 compiler present on disk, in that
order, stopping at the first failure. -/
def check_prerequisites (w : World) : Bool :=
  if (w.which "cargo").isNone then false
  else if (w.which "x86_64-w64-mingw32-gcc").isNone then false
  else if !(w.pathExists AARCH64_CLANG) then false
  else true

/-- Loop body of `ensure_targets`: `rustup target add` for each registry
entry, in registry order, returning False at the first failure. -/
def ensure_targets_from (w : World) :
    List (String × Target) → List Event × Except PyExn Bool
  | [] => ([], .ok true)
  | (_, t) :: rest =>
    let (ev, r) := run_command w ["rustup", "target", "add", t.triple] none
    match r with
    | .error e => (ev, .error e)
    | .ok false => (ev, .ok false)
    | .ok true =>
      let (ev2, r2) := ensure_targets_from w rest
      (ev ++ ev2, r2)

/-- `ensure_targets`: install every registered target's toolchain
component. -/
def ensure_targets (w : World) : List Event × Except PyExn Bool :=
  ensure_targets_from w TARGETS

/-- `OUTPUT_DIR = Path("/mnt/c/code")`. -/
def OUTPUT_DIR : String := "/mnt/c/code"

/-- `TARGET_DIR = PROJECT_DIR / "target"`. -/
def TARGET_DIR (projectDir : String) : String := projectDir ++ "/target"

/-- The joined path `TARGET_DIR / triple / "release" / "htop-win.exe"`. -/
def buildOutPath (projectDir triple : String) : String :=
  TARGET_DIR projectDir ++ "/" ++ triple ++ "/release/htop-win.exe"

/-- `get_build_output_path`: `TARGET_DIR / triple / "release" /
"htop-win.exe"`. -/
def get_build_output_path (projectDir : String) (target_name : String) :
    Except PyExn String :=
  match lookupTarget target_name with
  | none => .error .keyError
  | some t => .ok (buildOutPath projectDir t.triple)

/-- `get_final_output_path`: `OUTPUT_DIR / f"htop-win-{target_name}.exe"`. -/
def get_final_output_path (target_name : String) : String :=
  OUTPUT_DIR ++ "/htop-win-" ++ target_name ++ ".exe"

/-- `copy_to_output`: return None when the built executable is absent;
otherwise create the output directory and copy, returning the final
path. -/
def copy_to_output (w : World) (target_name : String) :
    List Event × Except PyExn (Option String) :=
  match get_build_output_path w.projectDir target_name with
  | .error e => ([], .error e)
  | .ok build_path =>
    let final_path := get_final_output_path target_name
    if w.pathExists build_path then
      ([Event.madeOutputDir, Event.copied build_path final_path], .ok (some final_path))
    else
      ([], .ok none)

/-- The `cargo build` command line issued by `build_target`. -/
def cargoBuildCmd (triple : String) (j : Int) : List String :=
  ["cargo", "build", "--release", "--target", triple, "-j", toString j]

/-- `build_target`: derive the target environment, add `CARGO_BUILD_JOBS`,
and run `cargo build --release --target <triple> -j <jobs>` from the
project directory. -/
def build_target (w : World) (target_name : String) (jobs : Option Int) :
    List Event × Except PyExn Bool :=
  match lookupTarget target_name with
  | none => ([], .error .keyError)
  | some target =>
    let num_jobs := jobs.getD w.cpuCount
    match get_env_for_target target_name w.hostEnv with
    | .error e => ([], .error e)
    | .ok env0 =>
      let env := env0.set "CARGO_BUILD_JOBS" (toString num_jobs)
      run_command w (cargoBuildCmd target.triple num_jobs) (some env)

/-- `check_target`: derive the target environment and run `cargo check
--target <triple>`; no job-count flag or variable is added. -/
def check_target (w : World) (target_name : String) :
    List Event × Except PyExn Bool :=
  match lookupTarget target_name with
  | none => ([], .error .keyError)
  | some target =>
    match get_env_for_target target_name w.hostEnv with
    | .error e => ([], .error e)
    | .ok env =>
      run_command w ["cargo", "check", "--target", target.triple] (some env)

/-- The CLI action. -/
inductive Action where
  | check
  | build
  | buildAll
deriving DecidableEq, Repr

/-- The parsed command line: action, `--target`, `-j` alias `--jobs`. -/
structure Args where
  action : Action
  target : String
  jobs : Option Int
deriving DecidableEq, Repr

/-- The build loop of the `build-all` branch: `results[name] =
build_target(name, jobs)` for every registry entry, never stopping at a
failure (only an uncaught exception aborts it). -/
def build_all_from (w : World) (jobs : Option Int) :
    List (String × Target) → List Event × Except PyExn (List (String × Bool))
  | [] => ([], .ok [])
  | (name, _) :: rest =>
    let (ev, r) := build_target w name jobs
    match r with
    | .error e => (ev, .error e)
    | .ok b =>
      match build_all_from w jobs rest with
      | (ev2, .error e) => (ev ++ ev2, .error e)
      | (ev2, .ok results) => (ev ++ ev2, .ok ((name, b) :: results))

/-- The summary loop of the `build-all` branch: for each recorded result in
order, stage successful builds and fold `all_success`. -/
def summarize (w : World) :
    List (String × Bool) → List Event × Except PyExn Bool
  | [] => ([], .ok true)
  | (name, success) :: rest =>
    if success then
      let (ev, r) := copy_to_output w name
      match r with
      | .error e => (ev, .error e)
      | .ok out =>
        match summarize w rest with
        | (ev2, .error e) => (ev ++ ev2, .error e)
        | (ev2, .ok all) => (ev ++ ev2, .ok (out.isSome && all))
    else
      match summarize w rest with
      | (ev2, .error e) => (ev2, .error e)
      | (ev2, .ok _) => (ev2, .ok false)

/-- `main` after argument parsing: prerequisite check, then the requested
action; the result is the list of externally visible events together with
the process exit status (or the uncaught exception, which Python would
also turn into a non-zero exit, printing a traceback). -/
def main_run (w : World) (args : Args) : List Event × Except PyExn Nat :=
  if !check_prerequisites w then ([], .ok 1)
  else
    match args.action with
    | .check =>
      let (ev1, r1) := ensure_targets w
      match r1 with
      | .error e => (ev1, .error e)
      | .ok false => (ev1, .ok 1)
      | .ok true =>
        let (ev2, r2) := check_target w args.target
        match r2 with
        | .error e => (ev1 ++ ev2, .error e)
        | .ok false => (ev1 ++ ev2, .ok 1)
        | .ok true => (ev1 ++ ev2, .ok 0)
    | .build =>
      let (ev1, r1) := ensure_targets w
      match r1 with
      | .error e => (ev1, .error e)
      | .ok false => (ev1, .ok 1)
      | .ok true =>
        let (ev2, r2) := build_target w args.target args.jobs
        match r2 with
        | .error e => (ev1 ++ ev2, .error e)
        | .ok false => (ev1 ++ ev2, .ok 1)
        | .ok true =>
          let (ev3, r3) := copy_to_output w args.target
          match r3 with
          | .error e => (ev1 ++ ev2 ++ ev3, .error e)
          | .ok (some _) => (ev1 ++ ev2 ++ ev3, .ok 0)
          | .ok none => (ev1 ++ ev2 ++ ev3, .ok 1)
    | .buildAll =>
      let (ev1, r1) := ensure_targets w
      match r1 with
      | .error e => (ev1, .error e)
      | .ok false => (ev1, .ok 1)
      | .ok true =>
        match build_all_from w args.jobs TARGETS with
        | (ev2, .error e) => (ev1 ++ ev2, .error e)
        | (ev2, .ok results) =>
          match summarize w results with
          | (ev3, .error e) => (ev1 ++ ev2 ++ ev3, .error e)
          | (ev3, .ok all) => (ev1 ++ ev2 ++ ev3, .ok (if all then 0 else 1))

/-- The `rustup target add` command line for the x64 triple. -/
def rustupAddX64 : List String := ["rustup", "target", "add", "x86_64-pc-windows-gnu"]

/-- The `rustup target add` command line for the arm64 triple. -/
def rustupAddArm64 : List String := ["rustup", "target", "add", "aarch64-pc-windows-gnullvm"]

/-- The variable names `get_env_for_target` writes for a descriptor: the
keys the spec documents as additions (or, for PATH, as a documented
rewrite). -/
def addedKeys (t : Target) : List String :=
  (if t.use_llvm_mingw then ["PATH"] else []) ++
  ["CC_" ++ envTripleOf t.triple, "AR_" ++ envTripleOf t.triple,
   "CARGO_TARGET_" ++ upperStr (envTripleOf t.triple) ++ "_LINKER"] ++
  (if containsSub "gnullvm" t.triple then
    ["CARGO_TARGET_" ++ upperStr (envTripleOf t.triple) ++ "_RUSTFLAGS"]
  else [])

/-- A host environment that already carries a static-crt flags binding for
the x64 triple. -/
def c3Host : Env :=
  [("PATH", "/usr/bin"),
   ("CARGO_TARGET_X86_64_PC_WINDOWS_GNU_RUSTFLAGS", "-C target-feature=+crt-static")]

/-- A fully functional concrete world: every tool resolves, every path
exists, every spawned process exits 0. -/
def okWorld : World :=
  { which := fun _ => some "/usr/bin/tool"
    pathExists := fun _ => true
    spawn := fun _ => .exited 0
    hostEnv := [("PATH", "/usr/bin")]
    cpuCount := 4
    projectDir := "/proj" }

/-- A world in which every spawn attempt fails outright (the executable
cannot be found). -/
def spawnFailWorld : World :=
  { which := fun _ => some "/usr/bin/tool"
    pathExists := fun _ => true
    spawn := fun _ => .spawnFailure
    hostEnv := [("PATH", "/usr/bin")]
    cpuCount := 4
    projectDir := "/proj" }

/-- A world in which the x64 release build exits 101 and everything else
succeeds. -/
def mixedWorld : World :=
  { which := fun _ => some "/usr/bin/tool"
    pathExists := fun _ => true
    spawn := fun cmd =>
      if cmd = cargoBuildCmd "x86_64-pc-windows-gnu" 4 then .exited 101 else .exited 0
    hostEnv := [("PATH", "/usr/bin")]
    cpuCount := 4
    projectDir := "/proj" }

/-- A world whose search path cannot resolve cargo but resolves everything
else. -/
def noCargoWorld : World :=
  { which := fun s => if s = "cargo" then none else some "/usr/bin/tool"
    pathExists := fun _ => true
    spawn := fun _ => .exited 0
    hostEnv := [("PATH", "/usr/bin")]
    cpuCount := 4
    projectDir := "/proj" }

/-- A world in which installing the arm64 toolchain target fails and
everything else succeeds. -/
def armInstallFailWorld : World :=
  { which := fun _ => some "/usr/bin/tool"
    pathExists := fun _ => true
    spawn := fun cmd => if cmd = rustupAddArm64 then .exited 1 else .exited 0
    hostEnv := [("PATH", "/usr/bin")]
    cpuCount := 4
    projectDir := "/proj" }

/-- A world in which every command succeeds but the x64 build output file
is missing from the filesystem. -/
def missingArtifactWorld : World :=
  { which := fun _ => some "/usr/bin/tool"
    pathExists := fun s => !(s == buildOutPath "/proj" "x86_64-pc-windows-gnu")
    spawn := fun _ => .exited 0
    hostEnv := [("PATH", "/usr/bin")]
    cpuCount := 4
    projectDir := "/proj" }

theorem Env.get_set_self (e : Env) (k v : String) :
    (e.set k v).get? k = some v := by
  induction e with
  | nil => simp [Env.set, Env.get?]
  | cons hd tl ih =>
    obtain ⟨k', v'⟩ := hd
    by_cases h : k' = k
    · simp [Env.set, Env.get?, h]
    · simp [Env.set, Env.get?, h, ih]

theorem Env.get_set_ne (e : Env) (k k' v : String) (h : k' ≠ k) :
    (e.set k v).get? k' = e.get? k' := by
  have h' : k ≠ k' := Ne.symm h
  induction e with
  | nil => simp [Env.set, Env.get?, h']
  | cons hd tl ih =>
    obtain ⟨k₀, v₀⟩ := hd
    by_cases h0 : k₀ = k
    · subst h0
      simp [Env.set, Env.get?, h']
    · simp only [Env.set, if_neg h0]
      by_cases h1 : k₀ = k'
      · simp [Env.get?, h1]
      · simp [Env.get?, h1, ih]

theorem Env.get_set_isSome (e : Env) (k v k' : String)
    (h : (e.get? k').isSome) : ((e.set k v).get? k').isSome := by
  by_cases hk : k' = k
  · subst hk; simp [Env.get_set_self]
  · rwa [Env.get_set_ne e k k' v hk]

theorem lookupTarget_cases (name : String) (t : Target)
    (h : lookupTarget name = some t) :
    (name = "x64" ∧ t = x64Target) ∨ (name = "arm64" ∧ t = arm64Target) := by
  by_cases h1 : name = "x64"
  · subst h1
    left
    refine ⟨rfl, ?_⟩
    have : lookupTarget "x64" = some x64Target := by decide
    rw [this] at h
    exact (Option.some_injective _ h).symm
  · by_cases h2 : name = "arm64"
    · subst h2
      right
      refine ⟨rfl, ?_⟩
      have : lookupTarget "arm64" = some arm64Target := by decide
      rw [this] at h
      exact (Option.some_injective _ h).symm
    · exfalso
      have e1 : ("x64" == name) = false := beq_eq_false_iff_ne.mpr (Ne.symm h1)
      have e2 : ("arm64" == name) = false := beq_eq_false_iff_ne.mpr (Ne.symm h2)
      simp [lookupTarget, TARGETS, List.find?, e1, e2] at h

theorem get_env_x64 (hostEnv : Env) :
    get_env_for_target "x64" hostEnv = .ok (x64Env hostEnv) := rfl

theorem get_env_arm64 (hostEnv : Env) (p : String)
    (hp : hostEnv.get? "PATH" = some p) :
    get_env_for_target "arm64" hostEnv = .ok (arm64Env hostEnv p) := by
  have hl : lookupTarget "arm64" = some arm64Target := by decide
  simp only [get_env_for_target, hl, arm64Target, hp]
  rfl

theorem get_env_arm64_noPath (hostEnv : Env)
    (hp : hostEnv.get? "PATH" = none) :
    get_env_for_target "arm64" hostEnv = .error .keyError := by
  have hl : lookupTarget "arm64" = some arm64Target := by decide
  simp only [get_env_for_target, hl, arm64Target, hp]
  rfl

theorem ensure_targets_run (w : World) (c2 : Int)
    (h1 : w.spawn rustupAddX64 = .exited 0)
    (h2 : w.spawn rustupAddArm64 = .exited c2) :
    ensure_targets w =
      ([Event.ranCommand rustupAddX64 w.hostEnv,
        Event.ranCommand rustupAddArm64 w.hostEnv],
       .ok (decide (c2 = 0))) := by
  simp only [rustupAddX64] at h1
  simp only [rustupAddArm64] at h2
  by_cases hc : c2 = 0 <;>
    simp [ensure_targets, TARGETS, ensure_targets_from, run_command, x64Target,
      arm64Target, h1, h2, hc, rustupAddX64, rustupAddArm64]

theorem ensure_targets_fail_first (w : World) (c1 : Int) (hc : c1 ≠ 0)
    (h1 : w.spawn rustupAddX64 = .exited c1) :
    ensure_targets w =
      ([Event.ranCommand rustupAddX64 w.hostEnv], .ok false) := by
  simp only [rustupAddX64] at h1
  simp [ensure_targets, TARGETS, ensure_targets_from, run_command, x64Target,
    h1, hc, rustupAddX64]

theorem build_target_x64_run (w : World) (jobs : Option Int) (c : Int)
    (hb : w.spawn (cargoBuildCmd "x86_64-pc-windows-gnu" (jobs.getD w.cpuCount)) = .exited c) :
    build_target w "x64" jobs =
      ([Event.ranCommand (cargoBuildCmd "x86_64-pc-windows-gnu" (jobs.getD w.cpuCount))
          ((x64Env w.hostEnv).set "CARGO_BUILD_JOBS" (toString (jobs.getD w.cpuCount)))],
       .ok (decide (c = 0))) := by
  have hl : lookupTarget "x64" = some x64Target := by decide
  simp only [build_target, hl, get_env_x64, run_command, x64Target, hb,
    Option.getD_some]

theorem build_target_arm64_run (w : World) (jobs : Option Int) (p : String) (c : Int)
    (hPath : w.hostEnv.get? "PATH" = some p)
    (hb : w.spawn (cargoBuildCmd "aarch64-pc-windows-gnullvm" (jobs.getD w.cpuCount)) = .exited c) :
    build_target w "arm64" jobs =
      ([Event.ranCommand (cargoBuildCmd "aarch64-pc-windows-gnullvm" (jobs.getD w.cpuCount))
          ((arm64Env w.hostEnv p).set "CARGO_BUILD_JOBS" (toString (jobs.getD w.cpuCount)))],
       .ok (decide (c = 0))) := by
  have hl : lookupTarget "arm64" = some arm64Target := by decide
  simp only [build_target, hl, get_env_arm64 w.hostEnv p hPath, run_command,
    arm64Target, hb, Option.getD_some]

theorem copy_to_output_x64_run (w : World) :
    copy_to_output w "x64" =
      (if w.pathExists (buildOutPath w.projectDir "x86_64-pc-windows-gnu") then
        ([Event.madeOutputDir,
          Event.copied (buildOutPath w.projectDir "x86_64-pc-windows-gnu")
            (get_final_output_path "x64")],
         .ok (some (get_final_output_path "x64")))
      else ([], .ok none)) := rfl

theorem copy_to_output_arm64_run (w : World) :
    copy_to_output w "arm64" =
      (if w.pathExists (buildOutPath w.projectDir "aarch64-pc-windows-gnullvm") then
        ([Event.madeOutputDir,
          Event.copied (buildOutPath w.projectDir "aarch64-pc-windows-gnullvm")
            (get_final_output_path "arm64")],
         .ok (some (get_final_output_path "arm64")))
      else ([], .ok none)) := rfl

theorem main_run_prereq_fail (w : World) (args : Args)
    (h : check_prerequisites w = false) :
    main_run w args = ([], .ok 1) := by
  simp [main_run, h]

theorem main_run_ensure_fail (w : World) (args : Args)
    (hpre : check_prerequisites w = true)
    (hens : (ensure_targets w).2 = .ok false) :
    main_run w args = ((ensure_targets w).1, .ok 1) := by
  rcases he : ensure_targets w with ⟨ev1, r1⟩
  rw [he] at hens
  simp only at hens
  subst hens
  cases args with
  | mk action target jobs =>
    cases action <;> simp [main_run, hpre, he]

theorem main_run_ensure_first (w : World) (args : Args)
    (hpre : check_prerequisites w = true) :
    ∃ rest, (main_run w args).1 = (ensure_targets w).1 ++ rest := by
  rcases he : ensure_targets w with ⟨ev1, r1⟩
  cases args with
  | mk action target jobs =>
    cases action with
    | check =>
      match r1, he with
      | .error e, he => exact ⟨[], by simp [main_run, hpre, he]⟩
      | .ok false, he => exact ⟨[], by simp [main_run, hpre, he]⟩
      | .ok true, he =>
        rcases hc : check_target w target with ⟨ev2, r2⟩
        match r2, hc with
        | .error e, hc => exact ⟨ev2, by simp [main_run, hpre, he, hc]⟩
        | .ok false, hc => exact ⟨ev2, by simp [main_run, hpre, he, hc]⟩
        | .ok true, hc => exact ⟨ev2, by simp [main_run, hpre, he, hc]⟩
    | build =>
      match r1, he with
      | .error e, he => exact ⟨[], by simp [main_run, hpre, he]⟩
      | .ok false, he => exact ⟨[], by simp [main_run, hpre, he]⟩
      | .ok true, he =>
        rcases hb : build_target w target jobs with ⟨ev2, r2⟩
        match r2, hb with
        | .error e, hb => exact ⟨ev2, by simp [main_run, hpre, he, hb]⟩
        | .ok false, hb => exact ⟨ev2, by simp [main_run, hpre, he, hb]⟩
        | .ok true, hb =>
          rcases hco : copy_to_output w target with ⟨ev3, r3⟩
          match r3, hco with
          | .error e, hco =>
            exact ⟨ev2 ++ ev3, by simp [main_run, hpre, he, hb, hco]⟩
          | .ok none, hco =>
            exact ⟨ev2 ++ ev3, by simp [main_run, hpre, he, hb, hco]⟩
          | .ok (some o), hco =>
            exact ⟨ev2 ++ ev3, by simp [main_run, hpre, he, hb, hco]⟩
    | buildAll =>
      match r1, he with
      | .error e, he => exact ⟨[], by simp [main_run, hpre, he]⟩
      | .ok false, he => exact ⟨[], by simp [main_run, hpre, he]⟩
      | .ok true, he =>
        rcases hba : build_all_from w jobs TARGETS with ⟨ev2, r2⟩
        match r2, hba with
        | .error e, hba => exact ⟨ev2, by simp [main_run, hpre, he, hba]⟩
        | .ok results, hba =>
          rcases hs : summarize w results with ⟨ev3, r3⟩
          match r3, hs with
          | .error e, hs =>
            exact ⟨ev2 ++ ev3, by simp [main_run, hpre, he, hba, hs]⟩
          | .ok all, hs =>
            exact ⟨ev2 ++ ev3, by simp [main_run, hpre, he, hba, hs]⟩

theorem main_run_buildAll (w : World) (tname : String) (jobs : Option Int)
    (p : String) (c1 c2 : Int)
    (hpre : check_prerequisites w = true)
    (hPath : w.hostEnv.get? "PATH" = some p)
    (h1 : w.spawn rustupAddX64 = .exited 0)
    (h2 : w.spawn rustupAddArm64 = .exited 0)
    (hb1 : w.spawn (cargoBuildCmd "x86_64-pc-windows-gnu" (jobs.getD w.cpuCount)) = .exited c1)
    (hb2 : w.spawn (cargoBuildCmd "aarch64-pc-windows-gnullvm" (jobs.getD w.cpuCount)) = .exited c2) :
    main_run w ⟨Action.buildAll, tname, jobs⟩ =
      ([Event.ranCommand rustupAddX64 w.hostEnv,
        Event.ranCommand rustupAddArm64 w.hostEnv,
        Event.ranCommand (cargoBuildCmd "x86_64-pc-windows-gnu" (jobs.getD w.cpuCount))
          ((x64Env w.hostEnv).set "CARGO_BUILD_JOBS" (toString (jobs.getD w.cpuCount))),
        Event.ranCommand (cargoBuildCmd "aarch64-pc-windows-gnullvm" (jobs.getD w.cpuCount))
          ((arm64Env w.hostEnv p).set "CARGO_BUILD_JOBS" (toString (jobs.getD w.cpuCount)))]
        ++ (if c1 = 0 ∧ w.pathExists (buildOutPath w.projectDir "x86_64-pc-windows-gnu") = true then
              [Event.madeOutputDir,
               Event.copied (buildOutPath w.projectDir "x86_64-pc-windows-gnu")
                 (get_final_output_path "x64")]
            else [])
        ++ (if c2 = 0 ∧ w.pathExists (buildOutPath w.projectDir "aarch64-pc-windows-gnullvm") = true then
              [Event.madeOutputDir,
               Event.copied (buildOutPath w.projectDir "aarch64-pc-windows-gnullvm")
                 (get_final_output_path "arm64")]
            else []),
       .ok (if c1 = 0 ∧ w.pathExists (buildOutPath w.projectDir "x86_64-pc-windows-gnu") = true
              ∧ c2 = 0 ∧ w.pathExists (buildOutPath w.projectDir "aarch64-pc-windows-gnullvm") = true
            then 0 else 1)) := by
  have hens := ensure_targets_run w 0 h1 h2
  have hbx := build_target_x64_run w jobs c1 hb1
  have hba := build_target_arm64_run w jobs p c2 hPath hb2
  have hcx := copy_to_output_x64_run w
  have hca := copy_to_output_arm64_run w
  by_cases hc1 : c1 = 0 <;> by_cases hc2 : c2 = 0 <;>
    cases hpx : w.pathExists (buildOutPath w.projectDir "x86_64-pc-windows-gnu") <;>
    cases hpa : w.pathExists (buildOutPath w.projectDir "aarch64-pc-windows-gnullvm") <;>
    simp [main_run, hpre, hens, TARGETS, build_all_from, hbx, hba, summarize,
      hcx, hca, hpx, hpa, hc1, hc2]

/-! Claim theorems. -/

/-- C2: for every registered target descriptor and every host environment,
an environment returned by `get_env_for_target` is a superset of the host
mapping: no host variable is removed, every variable outside the
documented additions keeps its value, and for a target requiring the
alternate toolchain root the new PATH value is the alternate toolchain
directory prepended to the entire original value. -/
theorem C2_derived_env_superset (name : String) (t : Target)
    (hl : lookupTarget name = some t) (hostEnv e : Env)
    (h : get_env_for_target name hostEnv = .ok e) :
    (∀ k, (hostEnv.get? k).isSome → (e.get? k).isSome) ∧
    (∀ k v, hostEnv.get? k = some v → k ∉ addedKeys t → e.get? k = some v) ∧
    (t.use_llvm_mingw = true → ∀ pv, hostEnv.get? "PATH" = some pv →
      e.get? "PATH" = some (LLVM_MINGW ++ ":" ++ pv)) := by
  rcases lookupTarget_cases name t hl with ⟨hn, ht⟩ | ⟨hn, ht⟩ <;> subst hn <;> subst ht
  · rw [get_env_x64] at h
    injection h with h
    subst h
    have hak : addedKeys x64Target =
        ["CC_x86_64_pc_windows_gnu", "AR_x86_64_pc_windows_gnu",
         "CARGO_TARGET_X86_64_PC_WINDOWS_GNU_LINKER"] := by decide
    refine ⟨?_, ?_, ?_⟩
    · intro k hk
      simp only [x64Env]
      exact Env.get_set_isSome _ _ _ _ (Env.get_set_isSome _ _ _ _
        (Env.get_set_isSome _ _ _ _ hk))
    · intro k v hkv hnk
      rw [hak] at hnk
      simp only [List.mem_cons, List.not_mem_nil, or_false] at hnk
      push_neg at hnk
      obtain ⟨n1, n2, n3⟩ := hnk
      simp only [x64Env]
      rw [Env.get_set_ne _ _ _ _ n3, Env.get_set_ne _ _ _ _ n2,
        Env.get_set_ne _ _ _ _ n1]
      exact hkv
    · intro habs
      simp [x64Target] at habs
  · cases hP : hostEnv.get? "PATH" with
    | none =>
      rw [get_env_arm64_noPath _ hP] at h
      simp at h
    | some pv =>
      rw [get_env_arm64 _ pv hP] at h
      injection h with h
      subst h
      have hak : addedKeys arm64Target =
          ["PATH", "CC_aarch64_pc_windows_gnullvm", "AR_aarch64_pc_windows_gnullvm",
           "CARGO_TARGET_AARCH64_PC_WINDOWS_GNULLVM_LINKER",
           "CARGO_TARGET_AARCH64_PC_WINDOWS_GNULLVM_RUSTFLAGS"] := by decide
      refine ⟨?_, ?_, ?_⟩
      · intro k hk
        simp only [arm64Env]
        exact Env.get_set_isSome _ _ _ _ (Env.get_set_isSome _ _ _ _
          (Env.get_set_isSome _ _ _ _ (Env.get_set_isSome _ _ _ _
            (Env.get_set_isSome _ _ _ _ hk))))
      · intro k v hkv hnk
        rw [hak] at hnk
        simp only [List.mem_cons, List.not_mem_nil, or_false] at hnk
        push_neg at hnk
        obtain ⟨n1, n2, n3, n4, n5⟩ := hnk
        simp only [arm64Env]
        rw [Env.get_set_ne _ _ _ _ n5, Env.get_set_ne _ _ _ _ n4,
          Env.get_set_ne _ _ _ _ n3, Env.get_set_ne _ _ _ _ n2,
          Env.get_set_ne _ _ _ _ n1]
        exact hkv
      · intro _ pv2 hpv2
        injection hpv2 with hpv2
        subst hpv2
        simp only [arm64Env]
        rw [Env.get_set_ne _ _ _ _ (by decide), Env.get_set_ne _ _ _ _ (by decide),
          Env.get_set_ne _ _ _ _ (by decide), Env.get_set_ne _ _ _ _ (by decide),
          Env.get_set_self]
        rfl

/-- C2 witness: on a concrete host environment, the derived arm64
environment keeps an unrelated variable and rewrites PATH by prepending
the llvm-mingw directory. -/
theorem C2_derived_env_superset_witness :
    Env.get? (arm64Env [("PATH", "/usr/bin"), ("HOME", "/root")] "/usr/bin") "HOME" =
      some "/root" ∧
    Env.get? (arm64Env [("PATH", "/usr/bin"), ("HOME", "/root")] "/usr/bin") "PATH" =
      some (LLVM_MINGW ++ ":" ++ "/usr/bin") := by
  have h := C2_derived_env_superset "arm64" arm64Target (by decide)
    [("PATH", "/usr/bin"), ("HOME", "/root")] _ (get_env_arm64 _ "/usr/bin" (by decide))
  exact ⟨h.2.1 "HOME" "/root" (by decide) (by decide), h.2.2 (by decide) "/usr/bin" (by decide)⟩

/-- C3 counterexample: for the host environment `c3Host`, which already
binds the x64 static-crt flags variable, the environment derived for the
x64 target does contain a compiler-flags binding requesting static runtime
linkage, contradicting the claim that it never does for any host
environment. -/
theorem C3_counterexample_inherited_flags :
    (get_env_for_target "x64" c3Host).toOption.bind
        (fun e => e.get? "CARGO_TARGET_X86_64_PC_WINDOWS_GNU_RUSTFLAGS") =
      some "-C target-feature=+crt-static" := by decide

/-- C3 amended: whenever derivation succeeds, the arm64 environment binds
the target-scoped compiler-flags variable to the static-crt request; the
x64 derivation never introduces such a binding of its own — the x64
flags variable in the derived environment is exactly whatever the host
environment bound (absent when the host did not bind it). -/
theorem C3_static_runtime_flags (hostEnv : Env) :
    (∀ e, get_env_for_target "arm64" hostEnv = .ok e →
      e.get? "CARGO_TARGET_AARCH64_PC_WINDOWS_GNULLVM_RUSTFLAGS" =
        some "-C target-feature=+crt-static") ∧
    (∀ e, get_env_for_target "x64" hostEnv = .ok e →
      e.get? "CARGO_TARGET_X86_64_PC_WINDOWS_GNU_RUSTFLAGS" =
        hostEnv.get? "CARGO_TARGET_X86_64_PC_WINDOWS_GNU_RUSTFLAGS") := by
  constructor
  · intro e h
    cases hP : hostEnv.get? "PATH" with
    | none => rw [get_env_arm64_noPath _ hP] at h; simp at h
    | some pv =>
      rw [get_env_arm64 _ pv hP] at h
      injection h with h
      subst h
      simp only [arm64Env]
      rw [Env.get_set_self]
  · intro e h
    rw [get_env_x64] at h
    injection h with h
    subst h
    simp only [x64Env]
    rw [Env.get_set_ne _ _ _ _ (by decide), Env.get_set_ne _ _ _ _ (by decide),
      Env.get_set_ne _ _ _ _ (by decide)]

/-- C3 witness: concrete instances of the amended claim — the arm64
derivation on a plain host binds the static-crt flags, and the x64
derivation on the same host leaves the flags variable absent. -/
theorem C3_static_runtime_flags_witness :
    Env.get? (arm64Env [("PATH", "/usr/bin")] "/usr/bin")
        "CARGO_TARGET_AARCH64_PC_WINDOWS_GNULLVM_RUSTFLAGS" =
      some "-C target-feature=+crt-static" ∧
    Env.get? (x64Env [("PATH", "/usr/bin")])
        "CARGO_TARGET_X86_64_PC_WINDOWS_GNU_RUSTFLAGS" =
      Env.get? [("PATH", "/usr/bin")] "CARGO_TARGET_X86_64_PC_WINDOWS_GNU_RUSTFLAGS" := by
  have h := C3_static_runtime_flags [("PATH", "/usr/bin")]
  exact ⟨h.1 _ (get_env_arm64 _ "/usr/bin" (by decide)), h.2 _ (get_env_x64 _)⟩

/-- C10: deriving the environment for the arm64 target raises a KeyError
when the host environment has no PATH variable, while deriving for the x64
target succeeds on the same PATH-less host environment. -/
theorem C10_arm64_env_requires_PATH (hostEnv : Env)
    (hp : hostEnv.get? "PATH" = none) :
    get_env_for_target "arm64" hostEnv = .error .keyError ∧
    get_env_for_target "x64" hostEnv = .ok (x64Env hostEnv) :=
  ⟨get_env_arm64_noPath hostEnv hp, get_env_x64 hostEnv⟩

/-- C10 witness: the empty host environment concretely exhibits the KeyError
for arm64 and the success for x64. -/
theorem C10_arm64_env_requires_PATH_witness :
    get_env_for_target "arm64" [] = .error .keyError ∧
    get_env_for_target "x64" [] = .ok (x64Env []) :=
  C10_arm64_env_requires_PATH [] (by decide)

/-- C4 counterexample: when spawning fails (the executable does not
exist), `run_command` does not return false — the exception escapes the
runner, contradicting the claim that every failure is reported by
returning false and never by propagating an exception. -/
theorem C4_counterexample_spawn_failure :
    (run_command spawnFailWorld ["cargo", "build"] none).2 = .error .fileNotFound ∧
    (run_command spawnFailWorld ["cargo", "build"] none).2 ≠ .ok false ∧
    (run_command spawnFailWorld ["cargo", "build"] none).2 ≠ .ok true := by
  refine ⟨rfl, ?_, ?_⟩ <;> intro h <;> exact Except.noConfusion h

/-- C4 amended: `run_command` returns true iff the spawned process exited
with status zero and returns false on any non-zero exit; a failure to
spawn the process is not caught — the FileNotFoundError propagates out of
the runner instead of being reported as false. -/
theorem C4_run_command_outcomes (w : World) (cmd : List String) (env : Option Env) :
    (∀ c : Int, w.spawn cmd = .exited c →
      (run_command w cmd env).2 = .ok (decide (c = 0))) ∧
    (w.spawn cmd = .spawnFailure →
      (run_command w cmd env).2 = .error .fileNotFound) := by
  constructor
  · intro c h
    simp [run_command, h]
  · intro h
    simp [run_command, h]

/-- C4 witness: a process that exits 0 concretely yields a true result from
the runner. -/
theorem C4_run_command_outcomes_witness :
    (run_command okWorld ["cargo"] none).2 = .ok true := by
  simpa using (C4_run_command_outcomes okWorld ["cargo"] none).1 0 rfl

/-- C7 counterexample: the environment-derivation operation does not bind
the parallelism-hint variable — the derived x64 environment has no
CARGO_BUILD_JOBS binding — and the environment of a check invocation also
lacks it, contradicting the claim that derivation binds it and that it is
present for every build or check invocation. -/
theorem C7_counterexample_no_jobs_in_check :
    (get_env_for_target "x64" [("PATH", "/usr/bin")]).toOption.bind
        (fun e => e.get? "CARGO_BUILD_JOBS") = none ∧
    (check_target okWorld "x64").1 =
      [Event.ranCommand ["cargo", "check", "--target", "x86_64-pc-windows-gnu"]
        (x64Env [("PATH", "/usr/bin")])] ∧
    Env.get? (x64Env [("PATH", "/usr/bin")]) "CARGO_BUILD_JOBS" = none := by
  refine ⟨by decide, rfl, by decide⟩

/-- C7 amended: the parallelism-hint variable CARGO_BUILD_JOBS is bound by
`build_target` — layered onto the derived environment just before the build
is spawned, with the explicit override or else the CPU count — while
`get_env_for_target` itself does not introduce the binding, and a check
invocation is spawned with the derived environment unchanged. -/
theorem C7_jobs_binding_in_build (w : World) (name : String) (t : Target)
    (jobs : Option Int) (e : Env)
    (hl : lookupTarget name = some t)
    (he : get_env_for_target name w.hostEnv = .ok e) :
    (build_target w name jobs).1 =
      [Event.ranCommand (cargoBuildCmd t.triple (jobs.getD w.cpuCount))
        (e.set "CARGO_BUILD_JOBS" (toString (jobs.getD w.cpuCount)))] ∧
    (e.set "CARGO_BUILD_JOBS" (toString (jobs.getD w.cpuCount))).get? "CARGO_BUILD_JOBS" =
      some (toString (jobs.getD w.cpuCount)) ∧
    e.get? "CARGO_BUILD_JOBS" = w.hostEnv.get? "CARGO_BUILD_JOBS" ∧
    (check_target w name).1 =
      [Event.ranCommand ["cargo", "check", "--target", t.triple] e] := by
  refine ⟨?_, Env.get_set_self _ _ _, ?_, ?_⟩
  · simp only [build_target, hl, he, run_command, Option.getD_some]
  · rcases lookupTarget_cases name t hl with ⟨hn, ht⟩ | ⟨hn, ht⟩ <;> subst hn
    · rw [get_env_x64] at he
      injection he with he
      subst he
      simp only [x64Env]
      rw [Env.get_set_ne _ _ _ _ (by decide), Env.get_set_ne _ _ _ _ (by decide),
        Env.get_set_ne _ _ _ _ (by decide)]
    · cases hP : w.hostEnv.get? "PATH" with
      | none => rw [get_env_arm64_noPath _ hP] at he; simp at he
      | some pv =>
        rw [get_env_arm64 _ pv hP] at he
        injection he with he
        subst he
        simp only [arm64Env]
        rw [Env.get_set_ne _ _ _ _ (by decide), Env.get_set_ne _ _ _ _ (by decide),
          Env.get_set_ne _ _ _ _ (by decide), Env.get_set_ne _ _ _ _ (by decide),
          Env.get_set_ne _ _ _ _ (by decide)]
  · simp only [check_target, hl, he, run_command, Option.getD_some]

/-- C7 witness: a concrete build invocation carries CARGO_BUILD_JOBS bound
to the CPU count. -/
theorem C7_jobs_binding_in_build_witness :
    (build_target okWorld "x64" none).1 =
      [Event.ranCommand (cargoBuildCmd "x86_64-pc-windows-gnu" 4)
        ((x64Env [("PATH", "/usr/bin")]).set "CARGO_BUILD_JOBS" (toString (4 : Int)))] :=
  (C7_jobs_binding_in_build okWorld "x64" x64Target none (x64Env [("PATH", "/usr/bin")])
    (by decide) (get_env_x64 _)).1

/-- C9: the expected build-output path is the build tool's output root
joined with the target's triple, the fixed release segment and the fixed
binary filename; the staged destination is the staging root joined with
the app-name-plus-target-name filename; and the staged filenames of the
two registered targets differ. -/
theorem C9_output_paths (projectDir name : String) (t : Target)
    (hl : lookupTarget name = some t) :
    get_build_output_path projectDir name =
      .ok (TARGET_DIR projectDir ++ "/" ++ t.triple ++ "/release/htop-win.exe") ∧
    get_final_output_path name = OUTPUT_DIR ++ "/htop-win-" ++ name ++ ".exe" ∧
    get_final_output_path "x64" ≠ get_final_output_path "arm64" := by
  refine ⟨?_, rfl, by decide⟩
  simp only [get_build_output_path, hl, buildOutPath]

/-- C9 witness: the x64 paths computed concretely. -/
theorem C9_output_paths_witness :
    get_build_output_path "/proj" "x64" =
      .ok (TARGET_DIR "/proj" ++ "/" ++ "x86_64-pc-windows-gnu" ++ "/release/htop-win.exe") ∧
    get_final_output_path "x64" = OUTPUT_DIR ++ "/htop-win-" ++ "x64" ++ ".exe" ∧
    get_final_output_path "x64" ≠ get_final_output_path "arm64" :=
  C9_output_paths "/proj" "x64" x64Target (by decide)

/-- C1: in a build-all run, both registered targets' builds are attempted
whatever each build's exit status is, a target whose build succeeded still
has its artifact staged when it exists, and the final exit status is zero
exactly when both targets built and staged successfully (non-zero as soon
as one build or staging failed). -/
theorem C1_build_all_independent (w : World) (tname : String) (jobs : Option Int)
    (p : String) (c1 c2 : Int)
    (hpre : check_prerequisites w = true)
    (hPath : w.hostEnv.get? "PATH" = some p)
    (h1 : w.spawn rustupAddX64 = .exited 0)
    (h2 : w.spawn rustupAddArm64 = .exited 0)
    (hb1 : w.spawn (cargoBuildCmd "x86_64-pc-windows-gnu" (jobs.getD w.cpuCount)) = .exited c1)
    (hb2 : w.spawn (cargoBuildCmd "aarch64-pc-windows-gnullvm" (jobs.getD w.cpuCount)) = .exited c2) :
    (Event.ranCommand (cargoBuildCmd "x86_64-pc-windows-gnu" (jobs.getD w.cpuCount))
        ((x64Env w.hostEnv).set "CARGO_BUILD_JOBS" (toString (jobs.getD w.cpuCount)))
      ∈ (main_run w ⟨Action.buildAll, tname, jobs⟩).1) ∧
    (Event.ranCommand (cargoBuildCmd "aarch64-pc-windows-gnullvm" (jobs.getD w.cpuCount))
        ((arm64Env w.hostEnv p).set "CARGO_BUILD_JOBS" (toString (jobs.getD w.cpuCount)))
      ∈ (main_run w ⟨Action.buildAll, tname, jobs⟩).1) ∧
    (c1 = 0 → w.pathExists (buildOutPath w.projectDir "x86_64-pc-windows-gnu") = true →
      Event.copied (buildOutPath w.projectDir "x86_64-pc-windows-gnu")
        (get_final_output_path "x64") ∈ (main_run w ⟨Action.buildAll, tname, jobs⟩).1) ∧
    (c2 = 0 → w.pathExists (buildOutPath w.projectDir "aarch64-pc-windows-gnullvm") = true →
      Event.copied (buildOutPath w.projectDir "aarch64-pc-windows-gnullvm")
        (get_final_output_path "arm64") ∈ (main_run w ⟨Action.buildAll, tname, jobs⟩).1) ∧
    (main_run w ⟨Action.buildAll, tname, jobs⟩).2 =
      .ok (if c1 = 0 ∧ w.pathExists (buildOutPath w.projectDir "x86_64-pc-windows-gnu") = true
             ∧ c2 = 0 ∧ w.pathExists (buildOutPath w.projectDir "aarch64-pc-windows-gnullvm") = true
           then 0 else 1) := by
  have h := main_run_buildAll w tname jobs p c1 c2 hpre hPath h1 h2 hb1 hb2
  rw [h]
  refine ⟨?_, ?_, ?_, ?_, rfl⟩
  · simp
  · simp
  · intro hc hx
    simp [hc, hx]
  · intro hc hx
    simp [hc, hx]

/-- C1 witness: with the x64 build exiting 101 and everything else
succeeding, the run still stages the arm64 artifact and exits non-zero. -/
theorem C1_build_all_independent_witness :
    Event.copied (buildOutPath "/proj" "aarch64-pc-windows-gnullvm")
        (get_final_output_path "arm64")
      ∈ (main_run mixedWorld ⟨Action.buildAll, "x64", none⟩).1 ∧
    (main_run mixedWorld ⟨Action.buildAll, "x64", none⟩).2 = .ok 1 := by
  have h := C1_build_all_independent mixedWorld "x64" none "/usr/bin" 101 0
    (by decide) (by decide) (by decide) (by decide) (by decide) (by decide)
  refine ⟨h.2.2.2.1 rfl (by decide), ?_⟩
  rw [h.2.2.2.2]
  norm_num

/-- C5: the prerequisite check fails whenever cargo is unresolvable
regardless of the other tools, fails on a missing x64 compiler or missing
arm64 alternate-toolchain compiler in that order, succeeds when all three
are present, and for every requested action a failing check makes the run
exit 1 before any command is spawned. -/
theorem C5_prerequisites_gate (w : World) (args : Args) :
    (w.which "cargo" = none → check_prerequisites w = false) ∧
    ((w.which "cargo").isSome = true → w.which "x86_64-w64-mingw32-gcc" = none →
      check_prerequisites w = false) ∧
    ((w.which "cargo").isSome = true → (w.which "x86_64-w64-mingw32-gcc").isSome = true →
      w.pathExists AARCH64_CLANG = false → check_prerequisites w = false) ∧
    ((w.which "cargo").isSome = true → (w.which "x86_64-w64-mingw32-gcc").isSome = true →
      w.pathExists AARCH64_CLANG = true → check_prerequisites w = true) ∧
    (check_prerequisites w = false → main_run w args = ([], .ok 1)) := by
  refine ⟨?_, ?_, ?_, ?_, main_run_prereq_fail w args⟩
  · intro h
    simp [check_prerequisites, h]
  · intro h1 h2
    obtain ⟨x, hx⟩ := Option.isSome_iff_exists.mp h1
    simp [check_prerequisites, hx, h2]
  · intro h1 h2 h3
    obtain ⟨x, hx⟩ := Option.isSome_iff_exists.mp h1
    obtain ⟨y, hy⟩ := Option.isSome_iff_exists.mp h2
    simp [check_prerequisites, hx, hy, h3]
  · intro h1 h2 h3
    obtain ⟨x, hx⟩ := Option.isSome_iff_exists.mp h1
    obtain ⟨y, hy⟩ := Option.isSome_iff_exists.mp h2
    simp [check_prerequisites, hx, hy, h3]

/-- C5 witness: a world without cargo concretely fails the check, and the
run exits 1 having spawned nothing. -/
theorem C5_prerequisites_gate_witness :
    check_prerequisites noCargoWorld = false ∧
    main_run noCargoWorld ⟨Action.buildAll, "x64", none⟩ = ([], .ok 1) := by
  have h := C5_prerequisites_gate noCargoWorld ⟨Action.buildAll, "x64", none⟩
  exact ⟨h.1 (by decide), h.2.2.2.2 (h.1 (by decide))⟩

/-- C6: staging yields no staged path whenever the expected build output
file is absent, even though the build command itself reported success; a
build run then exits 1, and in a build-all run the missing artifact alone
forces a non-zero exit. -/
theorem C6_staging_authoritative (w : World) (name : String) (t : Target)
    (jobs : Option Int) (tname : String) (p : String)
    (hl : lookupTarget name = some t)
    (hmiss : w.pathExists (buildOutPath w.projectDir t.triple) = false)
    (hpre : check_prerequisites w = true)
    (hPath : w.hostEnv.get? "PATH" = some p)
    (h1 : w.spawn rustupAddX64 = .exited 0)
    (h2 : w.spawn rustupAddArm64 = .exited 0)
    (hb1 : w.spawn (cargoBuildCmd "x86_64-pc-windows-gnu" (jobs.getD w.cpuCount)) = .exited 0)
    (hb2 : w.spawn (cargoBuildCmd "aarch64-pc-windows-gnullvm" (jobs.getD w.cpuCount)) = .exited 0) :
    copy_to_output w name = ([], .ok none) ∧
    (build_target w name jobs).2 = .ok true ∧
    (main_run w ⟨Action.build, name, jobs⟩).2 = .ok 1 ∧
    (main_run w ⟨Action.buildAll, tname, jobs⟩).2 = .ok 1 := by
  have hens := ensure_targets_run w 0 h1 h2
  have hball := main_run_buildAll w tname jobs p 0 0 hpre hPath h1 h2 hb1 hb2
  rcases lookupTarget_cases name t hl with ⟨hn, ht⟩ | ⟨hn, ht⟩ <;> subst hn <;> subst ht
  · have hmiss' : w.pathExists (buildOutPath w.projectDir "x86_64-pc-windows-gnu") = false :=
      hmiss
    have hbx := build_target_x64_run w jobs 0 hb1
    have hcx := copy_to_output_x64_run w
    refine ⟨?_, ?_, ?_, ?_⟩
    · rw [hcx]
      simp [hmiss']
    · rw [hbx]
      simp
    · simp [main_run, hpre, hens, hbx, hcx, hmiss']
    · rw [hball]
      simp [hmiss']
  · have hmiss' : w.pathExists (buildOutPath w.projectDir "aarch64-pc-windows-gnullvm") = false :=
      hmiss
    have hba := build_target_arm64_run w jobs p 0 hPath hb2
    have hca := copy_to_output_arm64_run w
    refine ⟨?_, ?_, ?_, ?_⟩
    · rw [hca]
      simp [hmiss']
    · rw [hba]
      simp
    · simp [main_run, hpre, hens, hba, hca, hmiss']
    · rw [hball]
      simp [hmiss']

/-- C6 witness: a concrete world whose x64 artifact is missing while every
command exits 0 exhibits the failed staging and the non-zero exits. -/
theorem C6_staging_authoritative_witness :
    copy_to_output missingArtifactWorld "x64" = ([], .ok none) ∧
    (build_target missingArtifactWorld "x64" none).2 = .ok true ∧
    (main_run missingArtifactWorld ⟨Action.build, "x64", none⟩).2 = .ok 1 ∧
    (main_run missingArtifactWorld ⟨Action.buildAll, "x64", none⟩).2 = .ok 1 :=
  C6_staging_authoritative missingArtifactWorld "x64" x64Target none "x64" "/usr/bin"
    (by decide) (by decide) (by decide) (by decide) (by decide) (by decide)
    (by decide) (by decide)

/-- C8 counterexample: a single-target `check --target x64` run still
attempts toolchain installation for the arm64 target, contradicting the
claim that installation is attempted exactly for the targets required by
the requested action. -/
theorem C8_counterexample_install_scope :
    Event.ranCommand rustupAddArm64 [("PATH", "/usr/bin")]
      ∈ (main_run okWorld ⟨Action.check, "x64", none⟩).1 := by decide

/-- C8 amended: toolchain installation is attempted for every registered
target regardless of the requested action; when installing a target
fails, the whole run exits 1 immediately, before any build or check
command is spawned. -/
theorem C8_install_all_targets (w : World) (args : Args) (c2 : Int)
    (hpre : check_prerequisites w = true)
    (h1 : w.spawn rustupAddX64 = .exited 0)
    (h2 : w.spawn rustupAddArm64 = .exited c2) :
    (Event.ranCommand rustupAddX64 w.hostEnv ∈ (main_run w args).1 ∧
     Event.ranCommand rustupAddArm64 w.hostEnv ∈ (main_run w args).1) ∧
    (c2 ≠ 0 →
      main_run w args =
        ([Event.ranCommand rustupAddX64 w.hostEnv,
          Event.ranCommand rustupAddArm64 w.hostEnv], .ok 1)) := by
  have hens := ensure_targets_run w c2 h1 h2
  constructor
  · obtain ⟨rest, hr⟩ := main_run_ensure_first w args hpre
    rw [hens] at hr
    simp only at hr
    rw [hr]
    simp
  · intro hc
    have hfalse : ensure_targets w =
        ([Event.ranCommand rustupAddX64 w.hostEnv,
          Event.ranCommand rustupAddArm64 w.hostEnv], .ok false) := by
      rw [hens]
      simp [hc]
    have h3 := main_run_ensure_fail w args hpre (by rw [hfalse])
    rw [hfalse] at h3
    simpa using h3

/-- C8 witness: with the arm64 toolchain installation failing, a build run
stops after the two installation attempts and exits 1. -/
theorem C8_install_all_targets_witness :
    main_run armInstallFailWorld ⟨Action.build, "x64", none⟩ =
      ([Event.ranCommand rustupAddX64 [("PATH", "/usr/bin")],
        Event.ranCommand rustupAddArm64 [("PATH", "/usr/bin")]], .ok 1) := by
  have h := C8_install_all_targets armInstallFailWorld ⟨Action.build, "x64", none⟩ 1
    (by decide) (by decide) (by decide)
  simpa using h.2 (by decide)

end BuildCross

